import Mathlib

set_option maxRecDepth 8192

/-!
Shallow embedding of the DWD precipitation tool (src/app.py) and proofs of
the specification's claims about it.

The script downloads an hourly-precipitation archive per station, extracts
the data file, parses it, normalizes the precipitation column, filters to a
requested calendar day, and renders a bar chart and a PDF.  We embed the
pure data transformations; network transport and file I/O stay outside the
model (they carry no claim here).

Modelling conventions:
* A raw CSV row is `RawRow`: the `MESS_DATUM` field as a natural number in
  `YYYYMMDDHH` form, and the `R1` precipitation field after the numeric
  parse `pd.to_numeric(..., errors := coerce)`, i.e. `Option ℚ` with `none`
  for a non-numeric cell (pandas NaN).
* Precipitation amounts are rationals: the feed carries decimal text, so ℚ
  represents the parsed values exactly.
* A pandas missing value (NaN) is `none` throughout.
-/

namespace Dwd

/-- One parsed CSV row of the DWD data file: `MESS_DATUM` (format
`YYYYMMDDHH`) and the `R1` column after `pd.to_numeric(..., errors
= coerce)`, where `none` models a NaN produced from a non-numeric cell. -/
structure RawRow where
  messdatum : Nat
  r1 : Option ℚ
deriving DecidableEq

/-- One row of the frame returned by `lade_daten`: the `datetime` column
split into its date part (`YYYYMMDD`, as compared by `.dt.date`) and hour
part, plus the normalized `precip_mm` column (`none` = NaN = no data). -/
structure Measurement where
  date : Nat
  hour : Nat
  precip_mm : Option ℚ
deriving DecidableEq

/-- Embeds `.mask(lambda x: x < 0)` applied after the numeric parse
(src/app.py line 34): a NaN stays NaN (in Python `NaN < 0` is `False`, so
`mask` keeps it as NaN), and a negative value is masked to NaN. -/
def maskNegative (x : Option ℚ) : Option ℚ :=
  match x with
  | none => none
  | some v => if v < 0 then none else some v

/-- Embeds the per-row column preparation of `lade_daten` (src/app.py lines
31-34): `datetime` is parsed from `MESS_DATUM` with format `%Y%m%d%H`, so
its date component is `messdatum / 100` and its hour is `messdatum % 100`;
`precip_mm` is the numeric parse of `R1` masked at negative values. -/
def prepRow (r : RawRow) : Measurement :=
  { date := r.messdatum / 100
    hour := r.messdatum % 100
    precip_mm := maskNegative r.r1 }

/-- Embeds the day filter `df[df["datetime"].dt.date == datum]`
(src/app.py line 35). -/
def dayFilter (datum : Nat) (ms : List Measurement) : List Measurement :=
  ms.filter (fun m => m.date == datum)

/-- Embeds the data transformation of `lade_daten` (src/app.py lines
30-35): every source row is column-prepared, then the frame is restricted
to rows whose date component equals the requested day.  Row order is the
source-file order; no sort is applied. -/
def lade_daten (datum : Nat) (rows : List RawRow) : List Measurement :=
  dayFilter datum (rows.map prepRow)

/-- Embeds `fnmatch.fnmatch(name, "produkt_rr_stunde_*_" ++ stationId ++
".txt")` (src/app.py line 29): a single `*` wildcard matches any (possibly
empty) run of characters, so a name matches exactly when it starts with the
fixed head, ends with the fixed tail, and is long enough that head and tail
do not overlap. -/
def matchesDataPattern (stationId name : String) : Bool :=
  let pre := "produkt_rr_stunde_".data
  let suf := ("_" ++ stationId ++ ".txt").data
  let n := name.data
  decide (pre.length + suf.length ≤ n.length) &&
  (n.take pre.length == pre) &&
  (n.drop (n.length - suf.length) == suf)

/-- The error kinds that can arise while selecting the data file inside the
archive: a Python `IndexError` (from `[...][0]` on an empty list) versus an
explicit NotFound-class "no matching data file" error (which the source
never raises). -/
inductive LoadError where
  | indexError
  | notFound
deriving DecidableEq

/-- Embeds the member selection of src/app.py line 29:
`[name for name in zf.namelist() if fnmatch.fnmatch(...)][0]`.  The first
matching member (in container order) is taken; indexing an empty match
list raises a Python `IndexError`, which we model as
`Except.error LoadError.indexError`. -/
def selectDataFile (stationId : String) (names : List String) :
    Except LoadError String :=
  match (names.filter (matchesDataPattern stationId)).head? with
  | some n => Except.ok n
  | none => Except.error LoadError.indexError

/-- Bar colors used by `generate_plot` (src/app.py line 39). -/
inductive BarColor where
  | red
  | skyblue
deriving DecidableEq

/-- One bar handed to `ax.bar`: its x position (the row's hour), its height
(the row's `precip_mm`; `none` models a NaN height, for which matplotlib
renders nothing visible), and its color. -/
structure Bar where
  hour : Nat
  height : Option ℚ
  color : BarColor
deriving DecidableEq

/-- The bar built for one row by src/app.py line 39: height is the row's
`precip_mm`, and the color list entry is `red if val >= 5 else skyblue`;
for a NaN value the Python comparison `val >= 5` is `False`, so the entry
is skyblue (the bar is invisible anyway, its height being NaN). -/
def barOf (m : Measurement) : Bar :=
  { hour := m.hour
    height := m.precip_mm
    color :=
      match m.precip_mm with
      | some v => if 5 ≤ v then BarColor.red else BarColor.skyblue
      | none => BarColor.skyblue }

/-- Embeds `generate_plot` (src/app.py lines 37-44): one bar per row of the
frame, at the row's hour, with the threshold color rule. -/
def generate_plot (ms : List Measurement) : List Bar :=
  ms.map barOf

/-- A bar is visibly drawn exactly when its height is an actual number: a
NaN-height bar produces no visible rectangle in the rendered chart. -/
def isDrawn (b : Bar) : Bool :=
  b.height.isSome

/-- Text colors used inside the PDF (src/app.py lines 69-72):
`set_text_color(200, 0, 0)` (red) versus `set_text_color(0, 0, 0)`. -/
inductive TextColor where
  | red
  | black
deriving DecidableEq

/-- One emitted PDF text cell: its text and the text color in effect. -/
structure PdfLine where
  text : String
  color : TextColor
deriving DecidableEq

/-- Two-digit rendering of an hour, as `strftime` pads `%H`. -/
def pad2 (n : Nat) : String :=
  if n < 10 then "0" ++ toString n else toString n

/-- Embeds `row["datetime"].strftime("%H:%M")` (src/app.py line 65): the
datetime was parsed with format `%Y%m%d%H`, so its minutes are always 0
and the rendering is `HH:00`. -/
def fmtTime (hour : Nat) : String :=
  pad2 hour ++ ":00"

/-- Embeds the Python format `f"{value:.1f}"` for the nonnegative
precipitation values that reach it: the value rounded to one decimal
place, written `d.t`.  (Exact ties round half-up here where IEEE
formatting is half-even, but the feed carries one-decimal values, so no
tie can arise.) -/
def fmt1 (v : ℚ) : String :=
  let n : Int := round (10 * v)
  toString (n / 10) ++ "." ++ toString (n % 10)

/-- The text line emitted for one row by the loop of src/app.py lines
64-73: a NaN value fails `pd.notna(value)` and emits nothing; a present
value emits `HH:MM Uhr: <value> mm` with red text when `value >= 5`, black
otherwise. -/
def lineOf (m : Measurement) : Option PdfLine :=
  match m.precip_mm with
  | none => none
  | some v =>
      some { text := fmtTime m.hour ++ " Uhr: " ++ fmt1 v ++ " mm"
             color := if 5 ≤ v then TextColor.red else TextColor.black }

/-- All text lines emitted for one station's frame, in frame order. -/
def pdfTextLines (ms : List Measurement) : List PdfLine :=
  ms.filterMap lineOf

/-- Embeds `df["precip_mm"].sum()` (src/app.py line 60): pandas sums with
`skipna=True`, so NaN entries are skipped and an empty or all-NaN column
sums to 0.0. -/
def totalPrecip (ms : List Measurement) : ℚ :=
  (ms.filterMap Measurement.precip_mm).sum

/-- A station registry entry (src/app.py lines 20-23). -/
structure Station where
  name : String
  id : String
  coords : String
deriving DecidableEq

/-- The fixed station registry `stationen` (src/app.py lines 20-23). -/
def stationen : List Station :=
  [ { name := "Hamburg-Neuwiedenthal", id := "01981", coords := "53.466, 9.933" },
    { name := "Hamburg-Fuhlsbüttel (Flughafen)", id := "01975", coords := "53.633, 10.000" } ]

/-- The data printed on one PDF page for one station (src/app.py lines
51-73): station name, coordinates, the daily total, and the emitted text
lines. -/
structure Page where
  station : String
  coords : String
  total : ℚ
  lines : List PdfLine
deriving DecidableEq

/-- The page `generate_pdf` builds for one station and its frame. -/
def pageFor (s : Station) (ms : List Measurement) : Page :=
  { station := s.name
    coords := s.coords
    total := totalPrecip ms
    lines := pdfTextLines ms }

/-- Embeds the page loop of `generate_pdf` (src/app.py lines 51-78): one
page per entry of `data_dict`, in dictionary order. -/
def generate_pdf (dd : List (Station × List Measurement)) : List Page :=
  dd.map fun p => pageFor p.1 p.2

/-- Embeds the GUI aggregation loop (src/app.py lines 89-94): for each
registered station the data is loaded, and the station is put into
`data_dict` only when its filtered frame is non-empty.  `fetch` maps a
station id to the parsed rows of its archive's data file. -/
def gui_data_dict (datum : Nat) (fetch : String → List RawRow) :
    List (Station × List Measurement) :=
  (stationen.map (fun s => (s, lade_daten datum (fetch s.id)))).filter
    (fun p => !p.2.isEmpty)

/-- Embeds the CSV aggregation (src/app.py lines 105-107): the per-station
frames of `data_dict` concatenated, each row tagged with its station
name. -/
def csvRows (dd : List (Station × List Measurement)) :
    List (Measurement × String) :=
  (dd.map fun p => p.2.map fun m => (m, p.1.name)).flatten

/-- Embeds the printing loop of the CLI branch (src/app.py lines 120-126):
one `lade_daten` call per station, whose result is printed.  `fetch` maps
a station id and a per-station invocation counter to the parsed rows that
call observes; the printed pass is invocation 0. -/
def cli_printed (datum : Nat) (fetch : String → Nat → List RawRow) :
    List (Station × List Measurement) :=
  stationen.map fun s => (s, lade_daten datum (fetch s.id 0))

/-- Embeds the dict comprehension of src/app.py line 128: for each station
two further `lade_daten` calls are made after the printed one —
invocation 1 feeds the PDF frame (`df`) and invocation 2 feeds the chart
(`fig`). -/
def cli_pdf_input (datum : Nat) (fetch : String → Nat → List RawRow) :
    List (Station × (List Measurement × List Bar)) :=
  stationen.map fun s =>
    (s, (lade_daten datum (fetch s.id 1),
         generate_plot (lade_daten datum (fetch s.id 2))))

/-! ## Shared helper lemmas -/

/-- Every measurement returned by `lade_daten` carries the requested
day as its date component. -/
lemma lade_daten_date (datum : Nat) (rows : List RawRow) :
    ∀ m ∈ lade_daten datum rows, m.date = datum := by
  intro m hm
  rcases List.mem_filter.mp hm with ⟨_, hdate⟩
  exact of_decide_eq_true hdate

/-- `gui_data_dict` is the station registry restricted to stations with a
non-empty loaded frame, each paired with its frame. -/
lemma gui_data_dict_eq (datum : Nat) (fetch : String → List RawRow) :
    gui_data_dict datum fetch
      = ((stationen.filter fun s => !(lade_daten datum (fetch s.id)).isEmpty).map
          fun s => (s, lade_daten datum (fetch s.id))) := by
  simpa [gui_data_dict, Function.comp] using
    List.filter_map (fun s : Station => (s, lade_daten datum (fetch s.id)))
      stationen (p := fun p : Station × List Measurement => !p.2.isEmpty)

/-- No two distinct registry entries share a display name. -/
lemma stationen_name_inj :
    ∀ s ∈ stationen, ∀ t ∈ stationen, s.name = t.name → s = t := by
  decide

/-! ## Theorems -/

/-- C1: for every source row, a non-numeric raw precipitation value (NaN
after the coercing parse) or a negative parsed value yields an absent
`precip_mm` after `lade_daten`'s normalization — never a negative value and
never 0 — while a non-negative parsed value is kept unchanged; moreover no
measurement in `lade_daten`'s output carries a negative value. -/
theorem C1_precip_normalization :
    (∀ r : RawRow,
      (r.r1 = none → (prepRow r).precip_mm = none)
      ∧ (∀ v : ℚ, r.r1 = some v → v < 0 → (prepRow r).precip_mm = none)
      ∧ (∀ v : ℚ, r.r1 = some v → 0 ≤ v → (prepRow r).precip_mm = some v))
    ∧ ∀ (datum : Nat) (rows : List RawRow),
        ∀ m ∈ lade_daten datum rows, ∀ v : ℚ, m.precip_mm = some v → 0 ≤ v := by
  constructor
  · intro r
    refine ⟨fun h => ?_, fun v hv hneg => ?_, fun v hv hnn => ?_⟩
    · simp [prepRow, maskNegative, h]
    · simp [prepRow, maskNegative, hv, hneg]
    · simp [prepRow, maskNegative, hv, if_neg (not_lt.mpr hnn)]
  · intro datum rows m hm v hv
    rcases List.mem_filter.mp hm with ⟨hmap, _⟩
    rcases List.mem_map.mp hmap with ⟨r, _, rfl⟩
    simp only [prepRow, maskNegative] at hv
    rcases hr1 : r.r1 with _ | w
    · simp [hr1] at hv
    · simp only [hr1] at hv
      by_cases hw : w < 0
      · simp [hw] at hv
      · simp [hw] at hv
        exact hv ▸ not_lt.mp hw

/-- Witness for C1 at concrete rows: a negative sentinel and a non-numeric
cell both normalize to "no data", and 0.3 survives unchanged. -/
theorem C1_precip_normalization_witness :
    (prepRow ⟨2024060103, some (-1)⟩).precip_mm = none
    ∧ (prepRow ⟨2024060104, none⟩).precip_mm = none
    ∧ (prepRow ⟨2024060105, some (3/10)⟩).precip_mm = some (3/10) :=
  ⟨(C1_precip_normalization.1 ⟨2024060103, some (-1)⟩).2.1 (-1) rfl (by norm_num),
   (C1_precip_normalization.1 ⟨2024060104, none⟩).1 rfl,
   (C1_precip_normalization.1 ⟨2024060105, some (3/10)⟩).2.2 (3/10) rfl (by norm_num)⟩

/-- C2: `lade_daten` returns exactly the prepared source rows whose date
component equals the requested day, in source-file order (it is the image
under row preparation of the date-matching subsequence of the source
rows); every returned measurement carries the requested day; and the
result is empty precisely when no source row falls on that day — an
ordinary value, not a failure. -/
theorem C2_day_filter_exact (datum : Nat) (rows : List RawRow) :
    lade_daten datum rows
      = ((rows.filter fun r => r.messdatum / 100 == datum).map prepRow)
    ∧ (∀ m ∈ lade_daten datum rows, m.date = datum)
    ∧ (lade_daten datum rows = [] ↔ ∀ r ∈ rows, r.messdatum / 100 ≠ datum) := by
  have hcomm : lade_daten datum rows
      = ((rows.filter fun r => r.messdatum / 100 == datum).map prepRow) := by
    simpa [lade_daten, dayFilter, Function.comp] using
      List.filter_map prepRow rows (p := fun m => m.date == datum)
  refine ⟨hcomm, fun m hm => ?_, ?_⟩
  · rcases List.mem_filter.mp hm with ⟨_, hdate⟩
    exact of_decide_eq_true hdate
  · rw [hcomm]
    simp [List.filter_eq_nil_iff]

/-- Witness for C2 at a concrete frame: of three rows only the two on
2024-06-01 survive, in order, both dated 2024-06-01. -/
theorem C2_day_filter_exact_witness :
    lade_daten 20240601
        [⟨2024060100, some 1⟩, ⟨2024053123, some 2⟩, ⟨2024060101, none⟩]
      = [⟨20240601, 0, some 1⟩, ⟨20240601, 1, none⟩]
    ∧ (⟨20240601, 0, some 1⟩ : Measurement).date = 20240601 := by
  have h := C2_day_filter_exact 20240601
    [⟨2024060100, some 1⟩, ⟨2024053123, some 2⟩, ⟨2024060101, none⟩]
  refine ⟨?_, h.2.1 ⟨20240601, 0, some 1⟩ ?_⟩ <;> decide

/-- C8: the day filter is idempotent — filtering an already-filtered
series by the same day returns the same series, element for element. -/
theorem C8_dayFilter_idempotent (datum : Nat) (ms : List Measurement) :
    dayFilter datum (dayFilter datum ms) = dayFilter datum ms := by
  simp [dayFilter, List.filter_filter]

/-- C3: the daily total printed on a station's PDF page is the sum of the
present precipitation values only — stated both as the sum over present
values and as the sum where absent values contribute 0 — and an all-absent
series totals 0.0. -/
theorem C3_daily_total (s : Station) (ms : List Measurement) :
    (pageFor s ms).total = (ms.filterMap Measurement.precip_mm).sum
    ∧ totalPrecip ms = (ms.map fun m => m.precip_mm.getD 0).sum
    ∧ ((∀ m ∈ ms, m.precip_mm = none) → (pageFor s ms).total = 0) := by
  have h2 : ∀ l : List Measurement,
      totalPrecip l = (l.map fun m => m.precip_mm.getD 0).sum := by
    intro l
    induction l with
    | nil => rfl
    | cons m t ih =>
      cases h : m.precip_mm with
      | none => simp [totalPrecip, List.filterMap_cons, h] at ih ⊢; exact ih
      | some v => simp [totalPrecip, List.filterMap_cons, h] at ih ⊢; exact ih
  refine ⟨rfl, h2 ms, fun hall => ?_⟩
  show totalPrecip ms = 0
  rw [h2 ms]
  exact List.sum_eq_zero fun x hx => by
    rcases List.mem_map.mp hx with ⟨m, hm, rfl⟩
    rw [hall m hm]
    rfl

/-- Witness for C3 at concrete series: with values `[0.2, absent, 6.0]`
the page total is 6.2, and an all-absent series totals 0. -/
theorem C3_daily_total_witness :
    (pageFor ⟨"Hamburg-Neuwiedenthal", "01981", "53.466, 9.933"⟩
        [⟨20240601, 0, some (1/5)⟩, ⟨20240601, 1, none⟩, ⟨20240601, 2, some 6⟩]).total
      = ([some (1/5), none, some 6].filterMap id).sum
    ∧ (pageFor ⟨"Hamburg-Neuwiedenthal", "01981", "53.466, 9.933"⟩
        [⟨20240601, 3, none⟩, ⟨20240601, 4, none⟩]).total = 0 :=
  ⟨by simpa using (C3_daily_total ⟨"Hamburg-Neuwiedenthal", "01981", "53.466, 9.933"⟩
      [⟨20240601, 0, some (1/5)⟩, ⟨20240601, 1, none⟩, ⟨20240601, 2, some 6⟩]).1,
   (C3_daily_total ⟨"Hamburg-Neuwiedenthal", "01981", "53.466, 9.933"⟩
      [⟨20240601, 3, none⟩, ⟨20240601, 4, none⟩]).2.2 (by decide)⟩

/-- C4: the PDF emits exactly one text line per present measurement (an
absent value emits nothing at all); an emitted line reads
`HH:MM Uhr: <value> mm` with the value at one decimal place, in red when
the value is at least 5.0 mm and in black otherwise. -/
theorem C4_pdf_lines (ms : List Measurement) :
    (pdfTextLines ms).length = (ms.filter fun m => m.precip_mm.isSome).length
    ∧ (∀ m : Measurement, m.precip_mm = none → lineOf m = none)
    ∧ (∀ (m : Measurement) (v : ℚ), m.precip_mm = some v → 5 ≤ v →
        lineOf m
          = some ⟨fmtTime m.hour ++ " Uhr: " ++ fmt1 v ++ " mm", TextColor.red⟩)
    ∧ (∀ (m : Measurement) (v : ℚ), m.precip_mm = some v → v < 5 →
        lineOf m
          = some ⟨fmtTime m.hour ++ " Uhr: " ++ fmt1 v ++ " mm", TextColor.black⟩) := by
  refine ⟨?_, fun m hm => by simp [lineOf, hm], fun m v hv h5 => ?_, fun m v hv h5 => ?_⟩
  · induction ms with
    | nil => rfl
    | cons m t ih =>
      cases h : m.precip_mm with
      | none => simpa [pdfTextLines, List.filterMap_cons, lineOf, h] using ih
      | some v => simpa [pdfTextLines, List.filterMap_cons, lineOf, h] using ih
  · simp [lineOf, hv, if_pos h5]
  · simp [lineOf, hv, if_neg (not_le.mpr h5)]

/-- Witness for C4 at concrete measurements: a 6.0 mm hour-7 value yields
a red `07:00 Uhr: 6.0 mm` line, a 0.2 mm value a black line, and an absent
value no line. -/
theorem C4_pdf_lines_witness :
    lineOf ⟨20240601, 7, some 6⟩
      = some ⟨fmtTime 7 ++ " Uhr: " ++ fmt1 6 ++ " mm", TextColor.red⟩
    ∧ lineOf ⟨20240601, 8, some (1/5)⟩
      = some ⟨fmtTime 8 ++ " Uhr: " ++ fmt1 (1/5) ++ " mm", TextColor.black⟩
    ∧ lineOf ⟨20240601, 9, none⟩ = none :=
  ⟨(C4_pdf_lines []).2.2.1 ⟨20240601, 7, some 6⟩ 6 rfl (by norm_num),
   (C4_pdf_lines []).2.2.2 ⟨20240601, 8, some (1/5)⟩ (1/5) rfl (by norm_num),
   (C4_pdf_lines []).2.1 ⟨20240601, 9, none⟩ rfl⟩

/-- C6: the visibly drawn bars of the chart are exactly one bar per
present measurement, in frame order; an absent value draws no bar; and a
drawn bar sits at the measurement's hour with the alert color (red)
exactly when the value is at least 5.0 mm and sky blue exactly when it is
below 5.0 mm. -/
theorem C6_chart_bars (ms : List Measurement) :
    (generate_plot ms).filter isDrawn
      = (ms.filter fun m => m.precip_mm.isSome).map barOf
    ∧ (∀ m : Measurement, m.precip_mm = none → isDrawn (barOf m) = false)
    ∧ (∀ (m : Measurement) (v : ℚ), m.precip_mm = some v →
        isDrawn (barOf m) = true
        ∧ (barOf m).hour = m.hour
        ∧ (barOf m).height = some v
        ∧ ((barOf m).color = BarColor.red ↔ 5 ≤ v)
        ∧ ((barOf m).color = BarColor.skyblue ↔ v < 5)) := by
  refine ⟨?_, fun m hm => by simp [isDrawn, barOf, hm], fun m v hv => ?_⟩
  · have hpred : (fun m : Measurement => isDrawn (barOf m))
        = fun m : Measurement => m.precip_mm.isSome := by
      funext m
      rfl
    calc (generate_plot ms).filter isDrawn
        = (ms.filter fun m => isDrawn (barOf m)).map barOf :=
          List.filter_map barOf ms
      _ = (ms.filter fun m => m.precip_mm.isSome).map barOf := by rw [hpred]
  · refine ⟨by simp [isDrawn, barOf, hv], rfl, by simp [barOf, hv], ?_, ?_⟩
    · by_cases h5 : 5 ≤ v
      · simp [barOf, hv, if_pos h5, h5]
      · simp [barOf, hv, if_neg h5, h5]
    · by_cases h5 : 5 ≤ v
      · simp [barOf, hv, if_pos h5, not_lt.mpr h5]
      · simp [barOf, hv, if_neg h5, lt_of_not_le h5]

/-- Witness for C6 at concrete measurements: a 6.0 mm value draws a red
bar, a 0.0 mm value a sky-blue bar, and an absent value draws nothing. -/
theorem C6_chart_bars_witness :
    isDrawn (barOf ⟨20240601, 2, some 6⟩) = true
    ∧ (barOf ⟨20240601, 2, some 6⟩).color = BarColor.red
    ∧ (barOf ⟨20240601, 0, some 0⟩).color = BarColor.skyblue
    ∧ isDrawn (barOf ⟨20240601, 3, none⟩) = false := by
  obtain ⟨hd, -, -, hred, -⟩ :=
    (C6_chart_bars []).2.2 ⟨20240601, 2, some 6⟩ 6 rfl
  obtain ⟨-, -, -, -, hblue⟩ :=
    (C6_chart_bars []).2.2 ⟨20240601, 0, some 0⟩ 0 rfl
  exact ⟨hd, hred.mpr (by norm_num), hblue.mpr (by norm_num),
    (C6_chart_bars []).2.1 ⟨20240601, 3, none⟩ rfl⟩

/-- C5: at a concrete archive whose only member does not match
`produkt_rr_stunde_*_01981.txt`, the member-selection step of
`lade_daten` fails with a Python `IndexError` (from indexing the empty
match list) and not with the NotFound-class "no matching data file" error
the specification requires — the source defect the spec flags in §9. -/
theorem C5_empty_match_raises_index_error :
    (["Metadaten_Geographie_01981.txt"].filter (matchesDataPattern "01981")) = []
    ∧ selectDataFile "01981" ["Metadaten_Geographie_01981.txt"]
        = Except.error LoadError.indexError
    ∧ LoadError.indexError ≠ LoadError.notFound := by
  have hfilter :
      (["Metadaten_Geographie_01981.txt"].filter (matchesDataPattern "01981")) = [] := by
    decide
  exact ⟨hfilter, by simp [selectDataFile, hfilter], by decide⟩

/-- C7 counterexample: `lade_daten` performs no deduplication, so a source
frame holding two rows with the same `MESS_DATUM` (2024-06-01 05h) yields
a daily series with two measurements at hour 5 — the "at most one
measurement per hour" invariant fails as an unconditional statement. -/
theorem C7_duplicate_hour_counterexample :
    ¬ List.Pairwise (fun a b : Measurement => a.hour ≠ b.hour)
        (lade_daten 20240601 [⟨2024060105, some 1⟩, ⟨2024060105, some 2⟩]) := by
  decide

/-- C7 (amended): provided the source rows carry pairwise-distinct
`MESS_DATUM` timestamps — as the DWD feed delivers them — the series
produced by `lade_daten` holds at most one measurement per hour; all its
measurements share the requested calendar day unconditionally; and every
hour lies in 0–23 whenever the source hour fields do. -/
theorem C7_at_most_one_per_hour (datum : Nat) (rows : List RawRow)
    (hnodup : (rows.map RawRow.messdatum).Nodup) :
    List.Pairwise (fun a b : Measurement => a.hour ≠ b.hour)
        (lade_daten datum rows)
    ∧ (∀ m ∈ lade_daten datum rows, m.date = datum)
    ∧ ((∀ r ∈ rows, r.messdatum % 100 < 24) →
        ∀ m ∈ lade_daten datum rows, m.hour < 24) := by
  refine ⟨?_, lade_daten_date datum rows, fun hval m hm => ?_⟩
  · have h1 : rows.Pairwise fun r w => r.messdatum ≠ w.messdatum :=
      List.pairwise_map.mp hnodup
    have h2 : (rows.map prepRow).Pairwise
        fun a b => a.date = b.date → a.hour ≠ b.hour := by
      rw [List.pairwise_map]
      refine h1.imp ?_
      intro r w hne hdate hhour
      simp only [prepRow] at hdate hhour
      omega
    have h3 := h2.filter (fun m => m.date == datum)
    refine List.Pairwise.imp_of_mem ?_ h3
    intro a b ha hb hab
    exact hab (by
      rw [lade_daten_date datum rows a ha, lade_daten_date datum rows b hb])
  · rcases List.mem_filter.mp hm with ⟨hmap, _⟩
    rcases List.mem_map.mp hmap with ⟨r, hr, rfl⟩
    exact lt_of_eq_of_lt rfl (hval r hr)

/-- Witness for the amended C7 at a concrete frame with distinct
timestamps: the filtered series has pairwise-distinct hours and its first
measurement's hour is below 24. -/
theorem C7_at_most_one_per_hour_witness :
    List.Pairwise (fun a b : Measurement => a.hour ≠ b.hour)
        (lade_daten 20240601 [⟨2024060105, some 1⟩, ⟨2024060106, some 2⟩])
    ∧ (⟨20240601, 5, some 1⟩ : Measurement).hour < 24 := by
  have h := C7_at_most_one_per_hour 20240601
    [⟨2024060105, some 1⟩, ⟨2024060106, some 2⟩] (by decide)
  exact ⟨h.1, h.2.2 (by decide) ⟨20240601, 5, some 1⟩ (by decide)⟩

/-- C9: in the GUI front end a registered station whose filtered series is
empty for the selected day is omitted from every output: the PDF pages and
CSV rows are built from exactly the stations with non-empty data (so the
document has one page per station with data, not one per registered
station), and an empty station contributes no `data_dict` entry, no page
and no CSV row. -/
theorem C9_empty_station_omitted (datum : Nat) (fetch : String → List RawRow) :
    generate_pdf (gui_data_dict datum fetch)
      = ((stationen.filter fun s => !(lade_daten datum (fetch s.id)).isEmpty).map
          fun s => pageFor s (lade_daten datum (fetch s.id)))
    ∧ csvRows (gui_data_dict datum fetch)
      = ((stationen.filter fun s => !(lade_daten datum (fetch s.id)).isEmpty).map
          fun s => (lade_daten datum (fetch s.id)).map fun m => (m, s.name)).flatten
    ∧ ∀ s ∈ stationen, lade_daten datum (fetch s.id) = [] →
        (∀ p ∈ gui_data_dict datum fetch, p.1 ≠ s)
        ∧ (∀ pg ∈ generate_pdf (gui_data_dict datum fetch), pg.station ≠ s.name)
        ∧ (∀ row ∈ csvRows (gui_data_dict datum fetch), row.2 ≠ s.name) := by
  have hmem : ∀ p ∈ gui_data_dict datum fetch,
      p.1 ∈ stationen ∧ p.2 = lade_daten datum (fetch p.1.id)
        ∧ lade_daten datum (fetch p.1.id) ≠ [] := by
    intro p hp
    rw [gui_data_dict_eq] at hp
    rcases List.mem_map.mp hp with ⟨s, hs, rfl⟩
    rcases List.mem_filter.mp hs with ⟨hsmem, hne⟩
    refine ⟨hsmem, rfl, fun hnil => ?_⟩
    rw [hnil] at hne
    simp at hne
  refine ⟨?_, ?_, fun s hs hempty => ?_⟩
  · rw [gui_data_dict_eq, generate_pdf, List.map_map]
    rfl
  · rw [gui_data_dict_eq, csvRows, List.map_map]
    rfl
  · have hp1 : ∀ p ∈ gui_data_dict datum fetch, p.1 ≠ s := by
      intro p hp heq
      rcases hmem p hp with ⟨-, -, hne⟩
      rw [heq] at hne
      exact hne hempty
    refine ⟨hp1, fun pg hpg => ?_, fun row hrow => ?_⟩
    · rcases List.mem_map.mp hpg with ⟨p, hp, rfl⟩
      rcases hmem p hp with ⟨hpmem, -, -⟩
      intro hname
      exact hp1 p hp (stationen_name_inj p.1 hpmem s hs hname)
    · rcases List.mem_flatten.mp hrow with ⟨l, hl, hrl⟩
      rcases List.mem_map.mp hl with ⟨p, hp, rfl⟩
      rcases List.mem_map.mp hrl with ⟨m, -, rfl⟩
      rcases hmem p hp with ⟨hpmem, -, -⟩
      intro hname
      exact hp1 p hp (stationen_name_inj p.1 hpmem s hs hname)

/-- Witness for C9 at a concrete day and fetch where only Fuhlsbüttel has
data: Neuwiedenthal's page is absent from the one-page document. -/
theorem C9_empty_station_omitted_witness :
    (⟨"Hamburg-Fuhlsbüttel (Flughafen)", "01975", "53.633, 10.000"⟩ : Station)
      ≠ ⟨"Hamburg-Neuwiedenthal", "01981", "53.466, 9.933"⟩ := by
  refine ((C9_empty_station_omitted 20240601
      fun id => if id == "01975" then [⟨2024060100, some 1⟩] else []).2.2
      ⟨"Hamburg-Neuwiedenthal", "01981", "53.466, 9.933"⟩
      (by decide) (by decide)).1
      (⟨"Hamburg-Fuhlsbüttel (Flughafen)", "01975", "53.633, 10.000"⟩,
        [⟨20240601, 0, some 1⟩]) ?_
  decide

/-- C10: the PDF built by the line-mode front end is fed by fresh
`lade_daten` invocations — per station, invocations 1 and 2 after the
printed invocation 0 — so the printed tables and the PDF frames agree for
every station when repeated fetches return identical data, while a fetch
whose repeats differ makes the PDF frames differ from what was printed. -/
theorem C10_cli_fresh_fetches :
    (∀ (datum : Nat) (fetch : String → Nat → List RawRow),
        (∀ sid n, fetch sid n = fetch sid 0) →
        cli_pdf_input datum fetch
          = (cli_printed datum fetch).map fun p => (p.1, (p.2, generate_plot p.2)))
    ∧ ∃ (datum : Nat) (fetch : String → Nat → List RawRow),
        (cli_pdf_input datum fetch).map (fun p => (p.1, p.2.1))
          ≠ cli_printed datum fetch := by
  constructor
  · intro datum fetch h
    simp only [cli_pdf_input, cli_printed, List.map_map]
    refine List.map_congr_left fun s _ => ?_
    rw [h s.id 1, h s.id 2]
    rfl
  · refine ⟨20240601,
      (fun _ n => if n == 0 then [] else [⟨2024060100, some 1⟩]), ?_⟩
    decide

/-- Witness for C10 at a fetch constant across invocations: the PDF input
equals the printed data paired with its chart. -/
theorem C10_cli_fresh_fetches_witness :
    cli_pdf_input 20240601 (fun _ _ => [⟨2024060100, some 1⟩])
      = (cli_printed 20240601 (fun _ _ => [⟨2024060100, some 1⟩])).map
          fun p => (p.1, (p.2, generate_plot p.2)) :=
  C10_cli_fresh_fetches.1 20240601 (fun _ _ => [⟨2024060100, some 1⟩])
    (fun _ _ => rfl)

end Dwd
